import Mathlib

/-!
Verification of the Transitions energy-economy model.

The Python source is embedded shallowly over `ℝ`:
 * float arithmetic becomes exact real arithmetic; `x ** y` for positive
   bases is `Real.rpow` (written `x ^ y` with a real exponent);
 * fallible code returns `Except PyError _`.  A raised Python exception
   (`NotImplementedError`, `ZeroDivisionError`, `NameError`, scipy's
   bracket/convergence errors) becomes `.error e` with the matching
   constructor.  A float NaN — which Python RETURNS and silently
   propagates through arithmetic rather than raising — is modelled by the
   distinguished marker `.error .nanValue`: monadic propagation coincides
   with NaN poisoning for the arithmetic compositions that occur here.
-/

/-- The distinguishable failure modes of the numeric code.
`nanValue` marks a float NaN result (a value Python returns, not an
exception); the other constructors model raised exceptions:
`notImplemented` a `NotImplementedError`, `zeroDivision` a
`ZeroDivisionError`, `nameError` a `NameError`, and
`noSignChange` / `nonConvergence` the two failure modes of scipy's
bracketed root finder `brentq` (`ValueError` when `f(a)` and `f(b)` have
the same sign, `RuntimeError` when the iteration budget is exhausted). -/
inductive PyError where
  | nanValue
  | notImplemented
  | zeroDivision
  | nameError
  | noSignChange
  | nonConvergence
  deriving DecidableEq, Repr

/-- Embeds `energy_consumers.EnergyConsumer`: a single stored quantity. -/
structure EnergyConsumer where
  quantity_demand : ℝ

namespace EnergyConsumer

/-- Embeds `EnergyConsumer.demand`: perfectly inelastic demand, the stored
quantity regardless of the energy price. -/
def demand (c : EnergyConsumer) (_energy_price : ℝ) : ℝ :=
  c.quantity_demand

/-- Embeds `EnergyConsumer.__init__`: the parameter is stored unmodified
and construction cannot fail. -/
def init (quantity_demand : ℝ) : EnergyConsumer :=
  ⟨quantity_demand⟩

end EnergyConsumer

/-- Embeds the parameter state of `energy_sectors.RenewableEnergySector`
(fields `_tfp`, `_alpha`, `_delta`, `_mu`). -/
structure RenewableEnergySector where
  tfp : ℝ
  alpha : ℝ
  delta : ℝ
  mu : ℝ

namespace RenewableEnergySector

/-- Embeds `RenewableEnergySector.__init__`: all four parameters are
stored unmodified; no computation happens, so construction cannot fail. -/
def init (tfp alpha delta mu : ℝ) : RenewableEnergySector :=
  ⟨tfp, alpha, delta, mu⟩

/-- Embeds `RenewableEnergySector.subsidy`:
`(1 + self._mu) * energy_price`. -/
noncomputable def subsidy (s : RenewableEnergySector) (energy_price : ℝ) : ℝ :=
  (1 + s.mu) * energy_price

/-- Embeds `RenewableEnergySector._capital_demand`:
`((alpha*tfp/(interest_rate+delta)) * (1/(capital_price/subsidy)))**(1/(1-alpha))`. -/
noncomputable def _capital_demand (s : RenewableEnergySector)
    (capital_price energy_price interest_rate : ℝ) : ℝ :=
  ((s.alpha * s.tfp / (interest_rate + s.delta)) *
    (1 / (capital_price / s.subsidy energy_price))) ^ ((1 : ℝ) / (1 - s.alpha))

/-- Embeds `RenewableEnergySector.output`:
`tfp * capital_demand**alpha`. -/
noncomputable def output (s : RenewableEnergySector)
    (capital_price energy_price interest_rate : ℝ) : ℝ :=
  s.tfp * (s._capital_demand capital_price energy_price interest_rate) ^ s.alpha

/-- Embeds `RenewableEnergySector.costs`:
`((1/(1-alpha)) * growth + delta) * capital_demand`. -/
noncomputable def costs (s : RenewableEnergySector)
    (capital_price energy_price energy_price_growth interest_rate : ℝ) : ℝ :=
  ((1 / (1 - s.alpha)) * energy_price_growth + s.delta) *
    s._capital_demand capital_price energy_price interest_rate

/-- Embeds `RenewableEnergySector._revenue`: `subsidy * output`. -/
noncomputable def _revenue (s : RenewableEnergySector)
    (capital_price energy_price interest_rate : ℝ) : ℝ :=
  s.subsidy energy_price * s.output capital_price energy_price interest_rate

/-- Embeds `RenewableEnergySector.profits`: `revenue - costs`. -/
noncomputable def profits (s : RenewableEnergySector)
    (capital_price energy_price energy_price_growth interest_rate : ℝ) : ℝ :=
  s._revenue capital_price energy_price interest_rate -
    s.costs capital_price energy_price energy_price_growth interest_rate

end RenewableEnergySector

/-- Embeds the parameter state of
`energy_sectors.NonRenewableEnergySector` (fields `_tfp`, `_alpha`,
`_beta`, `_gamma`, `_delta`, `_phi`, `_rho`, `_sigma`; `_rho` is the
derived value `(sigma - 1)/sigma` computed by `__init__`). -/
structure NonRenewableEnergySector where
  tfp : ℝ
  alpha : ℝ
  beta : ℝ
  gamma : ℝ
  delta : ℝ
  phi : ℝ
  rho : ℝ
  sigma : ℝ

namespace NonRenewableEnergySector

/-- Embeds `NonRenewableEnergySector.__init__`: the seven supplied
parameters are stored unmodified and `rho = (sigma - 1)/sigma` is
computed.  The only failure is Python's `ZeroDivisionError` when
`sigma = 0`; no positivity or range validation is performed. -/
noncomputable def init (tfp alpha beta gamma delta phi sigma : ℝ) :
    Except PyError NonRenewableEnergySector :=
  if sigma = 0 then .error .zeroDivision
  else .ok ⟨tfp, alpha, beta, gamma, delta, phi, (sigma - 1) / sigma, sigma⟩

/-- Embeds the property `NonRenewableEnergySector.equilibrium_q`:
`1 + (3/2) * delta**2 * phi`. -/
noncomputable def equilibrium_q (s : NonRenewableEnergySector) : ℝ :=
  1 + (3 / 2) * s.delta ^ 2 * s.phi

/-- Embeds `NonRenewableEnergySector._investment_demand`:
`((2/3) * (q-1) * (1/phi))**0.5 * capital`.  Python's float `** 0.5` on
a negative operand does not produce a real number (numpy returns NaN,
pure-Python `pow` a complex number): that case is the `.nanValue`
marker.  On a non-negative operand it is the real square root. -/
noncomputable def _investment_demand (s : NonRenewableEnergySector) (q capital : ℝ) :
    Except PyError ℝ :=
  if (2 / 3) * (q - 1) * (1 / s.phi) < 0 then .error .nanValue
  else .ok (Real.sqrt ((2 / 3) * (q - 1) * (1 / s.phi)) * capital)

/-- Embeds `NonRenewableEnergySector.equation_motion_capital`:
`K_dot = investment_demand(q, capital) - delta * capital`. -/
noncomputable def equation_motion_capital (s : NonRenewableEnergySector)
    (q capital : ℝ) : Except PyError ℝ :=
  (s._investment_demand q capital).map fun I => I - s.delta * capital

/-- Embeds the property `NonRenewableEnergySector._is_cobb_douglas`:
`(rho == 0) and ((alpha + beta) == gamma)`. -/
def _is_cobb_douglas (s : NonRenewableEnergySector) : Prop :=
  s.rho = 0 ∧ s.alpha + s.beta = s.gamma

noncomputable instance (s : NonRenewableEnergySector) : Decidable s._is_cobb_douglas :=
  inferInstanceAs (Decidable (_ ∧ _))

/-- Embeds `NonRenewableEnergySector._fossil_fuel_demand`: the
Cobb-Douglas closed form
`(tfp*beta/relative_price)**(1/(1-beta)) * capital**(alpha/(1-beta))`
with `relative_price = fossil_fuel_price/energy_price`; any other
functional form raises `NotImplementedError`. -/
noncomputable def _fossil_fuel_demand (s : NonRenewableEnergySector)
    (capital energy_price fossil_fuel_price : ℝ) : Except PyError ℝ :=
  if s._is_cobb_douglas then
    .ok ((s.tfp * s.beta / (fossil_fuel_price / energy_price)) ^ ((1 : ℝ) / (1 - s.beta)) *
      capital ^ (s.alpha / (1 - s.beta)))
  else .error .notImplemented

/-- Embeds `NonRenewableEnergySector.output`: first computes the fossil
fuel demand (whose `NotImplementedError` propagates), then branches on
the functional form exactly as the source does. -/
noncomputable def output (s : NonRenewableEnergySector)
    (capital energy_price fossil_fuel_price : ℝ) : Except PyError ℝ :=
  (s._fossil_fuel_demand capital energy_price fossil_fuel_price).map fun F =>
    if s._is_cobb_douglas then s.tfp * capital ^ s.alpha * F ^ s.beta
    else if s.rho = 0 then s.tfp * (capital ^ s.alpha * F ^ s.beta) ^ s.gamma
    else s.tfp * (s.alpha * capital ^ s.rho + s.beta * F ^ s.rho) ^ (s.gamma / s.rho)

/-- Embeds `NonRenewableEnergySector._marginal_product_fossil_fuel`.  The
non-Cobb-Douglas CES branch of the source reads the undefined name
`fossil_fuel` (a `NameError`); it is unreachable anyway because
`_fossil_fuel_demand` raises first. -/
noncomputable def _marginal_product_fossil_fuel (s : NonRenewableEnergySector)
    (capital energy_price fossil_fuel_price : ℝ) : Except PyError ℝ := do
  let F ← s._fossil_fuel_demand capital energy_price fossil_fuel_price
  let energy ← s.output capital energy_price fossil_fuel_price
  if s._is_cobb_douglas then pure (s.beta * (energy / F))
  else if s.rho = 0 then pure (s.beta * s.gamma * (energy / F))
  else .error .nameError

/-- Embeds `NonRenewableEnergySector._percentage_adjustment_costs`:
`(phi/2) * (investment/capital)**2`. -/
noncomputable def _percentage_adjustment_costs (s : NonRenewableEnergySector)
    (capital investment : ℝ) : ℝ :=
  (s.phi / 2) * (investment / capital) ^ 2

/-- Embeds `NonRenewableEnergySector._cost_capital`:
`capital_price * (1 + percentage_adjustment_costs) * investment_demand`. -/
noncomputable def _cost_capital (s : NonRenewableEnergySector)
    (q capital capital_price : ℝ) : Except PyError ℝ :=
  (s._investment_demand q capital).map fun I =>
    capital_price * (1 + s._percentage_adjustment_costs capital I) * I

/-- Embeds `NonRenewableEnergySector._cost_fossil_fuel`:
`fossil_fuel_price * fossil_fuel_demand`. -/
noncomputable def _cost_fossil_fuel (s : NonRenewableEnergySector)
    (capital energy_price fossil_fuel_price : ℝ) : Except PyError ℝ :=
  (s._fossil_fuel_demand capital energy_price fossil_fuel_price).map fun F =>
    fossil_fuel_price * F

/-- Embeds `NonRenewableEnergySector.costs`: capital costs plus fossil
fuel costs. -/
noncomputable def costs (s : NonRenewableEnergySector)
    (q capital capital_price energy_price fossil_fuel_price : ℝ) : Except PyError ℝ := do
  let cc ← s._cost_capital q capital capital_price
  let cf ← s._cost_fossil_fuel capital energy_price fossil_fuel_price
  pure (cc + cf)

/-- Embeds `NonRenewableEnergySector._revenue`: `energy_price * output`. -/
noncomputable def _revenue (s : NonRenewableEnergySector)
    (capital energy_price fossil_fuel_price : ℝ) : Except PyError ℝ :=
  (s.output capital energy_price fossil_fuel_price).map fun E => energy_price * E

/-- Embeds `NonRenewableEnergySector.profits`: `revenue - costs`. -/
noncomputable def profits (s : NonRenewableEnergySector)
    (q capital capital_price energy_price fossil_fuel_price : ℝ) : Except PyError ℝ := do
  let rev ← s._revenue capital energy_price fossil_fuel_price
  let c ← s.costs q capital capital_price energy_price fossil_fuel_price
  pure (rev - c)

end NonRenewableEnergySector

/-- Modelled from the spec: the static form of
`NonRenewableEnergySector.output` taking capital and fossil fuel as
independent arguments, the version exercised by
`test_energy_sectors.test_output` (its implementation is absent from
`src/`; only its test is present).  Follows §4.1 of the spec — the
Cobb-Douglas special case `tfp * K^alpha * F^beta` when the substitution
elasticity is 1 and the output elasticities sum to the scale parameter,
otherwise the CES aggregator
`tfp * (alpha*K^rho + beta*F^rho)^(gamma/rho)` with
`rho = (sigma-1)/sigma` — together with the zero-output edge-case
policy (§4.1 "Must fail (or return zero, per edge-case policy below) as
K or F → 0 without producing NaN" and §8 property 1, which fixes the
policy to "exactly zero" at a zero input for both forms). -/
noncomputable def output_static (tfp alpha beta gamma sigma capital fossil_fuel : ℝ) : ℝ :=
  if capital = 0 ∨ fossil_fuel = 0 then 0
  else
    let rho := (sigma - 1) / sigma
    if rho = 0 ∧ alpha + beta = gamma then tfp * capital ^ alpha * fossil_fuel ^ beta
    else if rho = 0 then tfp * (capital ^ alpha * fossil_fuel ^ beta) ^ gamma
    else tfp * (alpha * capital ^ rho + beta * fossil_fuel ^ rho) ^ (gamma / rho)

/-- Embeds the market composition root used by the tests and
`models.TransitionDynamicsModel`: one consumer, one non-renewable sector
and one renewable sector (the `WholesaleEnergyMarket` constructor
arguments; `src/energy_markets.py` carries the same composition in
static form). -/
structure WholesaleEnergyMarket where
  consumer : EnergyConsumer
  non_renewable_sector : NonRenewableEnergySector
  renewable_sector : RenewableEnergySector

namespace WholesaleEnergyMarket

/-- Embeds `EnergyMarket._aggregate_supply` from
`src/energy_markets.py`: total energy produced by the non-renewable and
renewable sectors at a candidate price (the non-renewable sector's
fossil fuel demand is derived inside `output`; the renewable sector's
capital demand inside its `output`). -/
noncomputable def _aggregate_supply (m : WholesaleEnergyMarket)
    (price non_renewable_capital capital_price fossil_fuel_price interest_rate : ℝ) :
    Except PyError ℝ :=
  (m.non_renewable_sector.output non_renewable_capital price fossil_fuel_price).map fun eNR =>
    eNR + m.renewable_sector.output capital_price price interest_rate

/-- Embeds `EnergyMarket._excess_demand`: consumer demand minus
aggregate supply; its root is the market price for energy. -/
noncomputable def _excess_demand (m : WholesaleEnergyMarket)
    (non_renewable_capital capital_price fossil_fuel_price interest_rate price : ℝ) :
    Except PyError ℝ :=
  (m._aggregate_supply price non_renewable_capital capital_price fossil_fuel_price
    interest_rate).map fun supply => m.consumer.demand price - supply

end WholesaleEnergyMarket

/-- Models scipy's `optimize.brentq` as called by
`EnergyMarket.find_market_price`: a bracketed, derivative-free root
search (here by interval halving, a member of the same contract family
as Brent's method) that
 * raises `ValueError` — `.error .noSignChange` — when the objective has
   the same nonzero sign at both bracket endpoints,
 * raises `RuntimeError` — `.error .nonConvergence` — when the iteration
   budget is exhausted before the bracket shrinks below `xtol`
   (scipy's `disp=True` default turns non-convergence into a raise, so
   the dead `else results` branch of `find_market_price` never runs),
 * propagates any exception raised by the objective itself, and
 * otherwise returns a point of a sign-change bracket of width
   at most `xtol`. -/
noncomputable def bisect (f : ℝ → Except PyError ℝ) (xtol : ℝ) :
    ℕ → ℝ → ℝ → Except PyError ℝ
  | 0, _, _ => .error .nonConvergence
  | n + 1, a, b =>
    match f a, f b with
    | .error e, _ => .error e
    | .ok _, .error e => .error e
    | .ok fa, .ok fb =>
      if fa = 0 then .ok a
      else if fb = 0 then .ok b
      else if 0 < fa * fb then .error .noSignChange
      else if b - a ≤ xtol then .ok ((a + b) / 2)
      else
        match f ((a + b) / 2) with
        | .error e => .error e
        | .ok fm =>
          if 0 < fa * fm then bisect f xtol n ((a + b) / 2) b
          else bisect f xtol n a ((a + b) / 2)

namespace WholesaleEnergyMarket

/-- Embeds `EnergyMarket.find_market_price`: root of the excess demand
over the bracket `[1e-12, 1e12]` with scipy's default tolerance
(`xtol = 2e-12`) and iteration budget (`maxiter = 100`). -/
noncomputable def find_market_price (m : WholesaleEnergyMarket)
    (non_renewable_capital capital_price fossil_fuel_price interest_rate : ℝ) :
    Except PyError ℝ :=
  bisect
    (m._excess_demand non_renewable_capital capital_price fossil_fuel_price interest_rate)
    (2 / 10 ^ 12) 100 (1 / 10 ^ 12) (10 ^ 12)

end WholesaleEnergyMarket

/-- Embeds `_energy_market_price` from `src/test_energy_markets.py`: the
closed-form analytic wholesale price for the special case
`alpha = alpha_R = 1 - alpha_NR`, Cobb-Douglas non-renewable production
and a constant multiplicative subsidy markup. -/
noncomputable def _energy_market_price (m : WholesaleEnergyMarket)
    (capital capital_price fossil_fuel_price interest_rate : ℝ) : ℝ :=
  let quantity_demand := m.consumer.quantity_demand
  let tfp_NR := m.non_renewable_sector.tfp
  let tfp_R := m.renewable_sector.tfp
  let alpha := m.renewable_sector.alpha
  let delta_R := m.renewable_sector.delta
  let mu_R := m.renewable_sector.mu
  let denominator :=
    tfp_NR ^ ((1 : ℝ) / (1 - alpha)) * (1 / fossil_fuel_price) ^ (alpha / (1 - alpha)) * capital +
      tfp_R ^ ((1 : ℝ) / (1 - alpha)) *
        (((1 + mu_R) / capital_price) * (1 / (interest_rate + delta_R))) ^ (alpha / (1 - alpha))
  (1 / alpha) * (quantity_demand / denominator) ^ ((1 - alpha) / alpha)

/-- A row of the trajectory matrix at the stage where
`ReverseShootingSolver._compute_non_renewable_sector_costs` is applied:
columns `t, q, K, price, output_NR, output_R` (the solver built them, in
that order, from the reversed integration output). -/
structure TrajRow where
  t : ℝ
  q : ℝ
  K : ℝ
  price : ℝ
  outNR : ℝ
  outR : ℝ

/-- Embeds the column appended by
`ReverseShootingSolver._compute_non_renewable_sector_costs`: for each
row, the sector's `costs(q, K, capital_price, price, fossil_fuel_price)`
divided — by the trailing `costs / non_renewable_output` — by that row's
non-renewable output column. -/
noncomputable def nonRenewableCostColumn (s : NonRenewableEnergySector)
    (capital_price fossil_fuel_price : ℝ) (rows : List TrajRow) :
    List (Except PyError ℝ) :=
  rows.map fun r =>
    (s.costs r.q r.K capital_price r.price fossil_fuel_price).map (· / r.outNR)

/-- Embeds the column appended by
`ReverseShootingSolver._compute_non_renewable_sector_profits` (docstring
"Compute profits per unit energy output"): the sector's profits divided
by the row's non-renewable output column. -/
noncomputable def nonRenewableProfitColumn (s : NonRenewableEnergySector)
    (capital_price fossil_fuel_price : ℝ) (rows : List TrajRow) :
    List (Except PyError ℝ) :=
  rows.map fun r =>
    (s.profits r.q r.K capital_price r.price fossil_fuel_price).map (· / r.outNR)

/-- Embeds the column appended by
`ReverseShootingSolver._compute_renewable_sector_costs`, with the local
price growth rates (obtained in the source from a degree-15 Chebyshev
fit of the whole price series, an external numpy routine) supplied as a
list zipped against the rows: each entry is
`renewable.costs(capital_price, price, growth_rate, interest_rate)`
divided by the row's renewable output column. -/
noncomputable def renewableCostColumn (s : RenewableEnergySector)
    (capital_price interest_rate : ℝ) (growthRates : List ℝ) (rows : List TrajRow) :
    List ℝ :=
  (rows.zip growthRates).map fun rg =>
    s.costs capital_price rg.1.price rg.2 interest_rate / rg.1.outR

/-- Embeds the column appended by
`ReverseShootingSolver._compute_renewable_sector_profits`: the renewable
sector's profits at the row's price and fitted growth rate, divided by
the row's renewable output column. -/
noncomputable def renewableProfitColumn (s : RenewableEnergySector)
    (capital_price interest_rate : ℝ) (growthRates : List ℝ) (rows : List TrajRow) :
    List ℝ :=
  (rows.zip growthRates).map fun rg =>
    s.profits capital_price rg.1.price rg.2 interest_rate / rg.1.outR

/-- Embeds the `while` loop of `ReverseShootingSolver.solve` (the same
loop appears verbatim in
`TransitionDynamicsModel._solve_reverse_shooting`): starting from time
`t` and state `y = (q, K)`, while the integrator reports success and the
capital component has not crossed `K0` (still `≥ K0` when shooting
downward, still `≤ K0` when shooting upward), advance time by `dt` and
integrate one step.  The abstract `integrate` returns `none` exactly
when the scipy integrator's `successful()` turns false, which exits the
loop.  The fuel argument counts loop iterations: `none` as a result
means the loop is STILL RUNNING after that many iterations — the source
loop has no iteration cap of its own. -/
noncomputable def shootingLoop (integrate : ℝ → ℝ × ℝ → Option (ℝ × ℝ)) (dt K0 : ℝ) (down : Bool) :
    ℕ → ℝ → ℝ × ℝ → Option (ℝ × (ℝ × ℝ))
  | 0, _, _ => none
  | n + 1, t, y =>
    if (if down then K0 ≤ y.2 else y.2 ≤ K0) then
      match integrate (t + dt) y with
      | some y' => shootingLoop integrate dt K0 down n (t + dt) y'
      | none => some (t + dt, y)
    else some (t, y)

/-- The shooting loop terminates: after some finite number of iterations
it has exited (by crossing `K0` or by integrator failure). -/
def shootingTerminates (integrate : ℝ → ℝ × ℝ → Option (ℝ × ℝ))
    (dt K0 : ℝ) (down : Bool) (t0 : ℝ) (y0 : ℝ × ℝ) : Prop :=
  ∃ n r, shootingLoop integrate dt K0 down n t0 y0 = some r

/-! ## Evaluation lemmas for the Cobb-Douglas branch -/

namespace NonRenewableEnergySector

lemma fossil_fuel_demand_ok (s : NonRenewableEnergySector) (h : s._is_cobb_douglas)
    (K p pF : ℝ) :
    s._fossil_fuel_demand K p pF =
      .ok ((s.tfp * s.beta / (pF / p)) ^ ((1 : ℝ) / (1 - s.beta)) *
        K ^ (s.alpha / (1 - s.beta))) := by
  rw [_fossil_fuel_demand, if_pos h]

lemma output_ok (s : NonRenewableEnergySector) (h : s._is_cobb_douglas) (K p pF : ℝ) :
    s.output K p pF =
      .ok (s.tfp * K ^ s.alpha *
        ((s.tfp * s.beta / (pF / p)) ^ ((1 : ℝ) / (1 - s.beta)) *
          K ^ (s.alpha / (1 - s.beta))) ^ s.beta) := by
  rw [output, fossil_fuel_demand_ok s h]
  simp [Except.map, if_pos h]

end NonRenewableEnergySector

/-- The Cobb-Douglas first-order condition for fuel use, for an
arbitrary fuel level `F` satisfying the closed-form relation
`F^(1-beta) = (tfp*beta/(pF/p)) * K^alpha`. -/
lemma cobb_douglas_fuel_foc (tfp beta alpha p pF K F : ℝ)
    (hpF : 0 < pF) (hF : 0 < F)
    (hkey : F ^ ((1 : ℝ) - beta) = tfp * beta / (pF / p) * K ^ alpha) :
    p * (beta * ((tfp * K ^ alpha * F ^ beta) / F)) = pF := by
  have hsplit : F ^ beta * F ^ ((1 : ℝ) - beta) = F := by
    rw [← Real.rpow_add hF, show beta + ((1 : ℝ) - beta) = 1 by ring, Real.rpow_one]
  have hBp : pF * (tfp * beta / (pF / p)) = p * beta * tfp := by
    field_simp
    ring
  have hmain : p * beta * (tfp * K ^ alpha * F ^ beta) = pF * F := by
    calc p * beta * (tfp * K ^ alpha * F ^ beta)
        = pF * (tfp * beta / (pF / p)) * K ^ alpha * F ^ beta := by rw [hBp]; ring
      _ = pF * (F ^ beta * (tfp * beta / (pF / p) * K ^ alpha)) := by ring
      _ = pF * (F ^ beta * F ^ ((1 : ℝ) - beta)) := by rw [hkey]
      _ = pF * F := by rw [hsplit]
  have hstep : p * (beta * ((tfp * K ^ alpha * F ^ beta) / F)) =
      p * beta * (tfp * K ^ alpha * F ^ beta) / F := by ring
  rw [hstep, hmain, mul_div_cancel_right₀ pF hF.ne']

/-! ## Supply algebra for the special Cobb-Douglas case of C2 -/

/-- Non-renewable supply at price `p` in the special case
`alpha_NR = 1 - a`, `beta_NR = a`, `gamma = 1`: the output value
factors as `(a*p)^(a/(1-a))` times the capital term of the analytic
denominator. -/
lemma nr_supply_value (tfpN a p pF K : ℝ) (ha0 : 0 < a) (ha1 : a < 1)
    (htN : 0 < tfpN) (hp : 0 < p) (hpF : 0 < pF) (hK : 0 < K) :
    tfpN * K ^ (1 - a) *
        ((tfpN * a / (pF / p)) ^ ((1 : ℝ) / (1 - a)) * K ^ ((1 - a) / (1 - a))) ^ a =
      (a * p) ^ (a / (1 - a)) *
        (tfpN ^ ((1 : ℝ) / (1 - a)) * (1 / pF) ^ (a / (1 - a)) * K) := by
  have hne : (1 : ℝ) - a ≠ 0 := by linarith
  have hap : 0 < a * p := mul_pos ha0 hp
  have hB : 0 < tfpN * a / (pF / p) := div_pos (mul_pos htN ha0) (div_pos hpF hp)
  have hKexp : K ^ ((1 - a) / (1 - a)) = K := by rw [div_self hne, Real.rpow_one]
  have hBeq : tfpN * a / (pF / p) = tfpN * ((a * p) * (1 / pF)) := by
    rw [div_div_eq_mul_div]; ring
  have e1a : (1 : ℝ) / (1 - a) * a = a / (1 - a) := by ring
  have hsum1 : (1 : ℝ) + a / (1 - a) = 1 / (1 - a) := by field_simp
  calc tfpN * K ^ (1 - a) *
      ((tfpN * a / (pF / p)) ^ ((1 : ℝ) / (1 - a)) * K ^ ((1 - a) / (1 - a))) ^ a
      = tfpN * K ^ (1 - a) * ((tfpN * a / (pF / p)) ^ ((1 : ℝ) / (1 - a)) * K) ^ a := by
        rw [hKexp]
    _ = tfpN * K ^ (1 - a) *
          (((tfpN * a / (pF / p)) ^ ((1 : ℝ) / (1 - a))) ^ a * K ^ a) := by
        rw [Real.mul_rpow (Real.rpow_pos_of_pos hB _).le hK.le]
    _ = tfpN * (tfpN * a / (pF / p)) ^ (a / (1 - a)) * (K ^ (1 - a) * K ^ a) := by
        rw [← Real.rpow_mul hB.le, e1a]; ring
    _ = tfpN * (tfpN * a / (pF / p)) ^ (a / (1 - a)) * K := by
        rw [← Real.rpow_add hK, show (1 - a) + a = (1 : ℝ) by ring, Real.rpow_one]
    _ = tfpN * (tfpN ^ (a / (1 - a)) * ((a * p) ^ (a / (1 - a)) * (1 / pF) ^ (a / (1 - a)))) *
          K := by
        rw [hBeq, Real.mul_rpow htN.le (mul_nonneg hap.le (by positivity)),
          Real.mul_rpow hap.le (by positivity)]
    _ = (tfpN ^ (1 : ℝ) * tfpN ^ (a / (1 - a))) *
          ((a * p) ^ (a / (1 - a)) * (1 / pF) ^ (a / (1 - a))) * K := by
        rw [Real.rpow_one]; ring
    _ = tfpN ^ ((1 : ℝ) / (1 - a)) *
          ((a * p) ^ (a / (1 - a)) * (1 / pF) ^ (a / (1 - a))) * K := by
        rw [← Real.rpow_add htN, hsum1]
    _ = (a * p) ^ (a / (1 - a)) *
          (tfpN ^ ((1 : ℝ) / (1 - a)) * (1 / pF) ^ (a / (1 - a)) * K) := by ring

/-- Renewable supply at price `p` with a constant markup subsidy: the
output value factors as `(a*p)^(a/(1-a))` times the renewable term of
the analytic denominator. -/
lemma r_supply_value (tfpR a dR mu cp p r : ℝ) (ha0 : 0 < a) (ha1 : a < 1)
    (htR : 0 < tfpR) (hcp : 0 < cp) (hp : 0 < p) (hr : 0 < r + dR) (hmu : 0 < 1 + mu) :
    tfpR * (((a * tfpR / (r + dR)) * (1 / (cp / ((1 + mu) * p)))) ^ ((1 : ℝ) / (1 - a))) ^ a =
      (a * p) ^ (a / (1 - a)) *
        (tfpR ^ ((1 : ℝ) / (1 - a)) *
          (((1 + mu) / cp) * (1 / (r + dR))) ^ (a / (1 - a))) := by
  have hne : (1 : ℝ) - a ≠ 0 := by linarith
  have hap : 0 < a * p := mul_pos ha0 hp
  have hX : 0 < ((1 + mu) / cp) * (1 / (r + dR)) := by positivity
  have hC : 0 < (a * tfpR / (r + dR)) * (1 / (cp / ((1 + mu) * p))) := by
    have h1 : 0 < a * tfpR / (r + dR) := div_pos (mul_pos ha0 htR) hr
    have h2 : 0 < cp / ((1 + mu) * p) := div_pos hcp (mul_pos hmu hp)
    exact mul_pos h1 (one_div_pos.mpr h2)
  have hr' : r + dR ≠ 0 := hr.ne'
  have hcp' : cp ≠ 0 := hcp.ne'
  have hmp : (1 + mu) * p ≠ 0 := (mul_pos hmu hp).ne'
  have hCeq : (a * tfpR / (r + dR)) * (1 / (cp / ((1 + mu) * p))) =
      tfpR * ((a * p) * (((1 + mu) / cp) * (1 / (r + dR)))) := by
    field_simp
    ring
  have e1a : (1 : ℝ) / (1 - a) * a = a / (1 - a) := by ring
  have hsum1 : (1 : ℝ) + a / (1 - a) = 1 / (1 - a) := by field_simp
  calc tfpR * (((a * tfpR / (r + dR)) * (1 / (cp / ((1 + mu) * p)))) ^ ((1 : ℝ) / (1 - a))) ^ a
      = tfpR * ((a * tfpR / (r + dR)) * (1 / (cp / ((1 + mu) * p)))) ^ (a / (1 - a)) := by
        rw [← Real.rpow_mul hC.le, e1a]
    _ = tfpR * (tfpR * ((a * p) * (((1 + mu) / cp) * (1 / (r + dR))))) ^ (a / (1 - a)) := by
        rw [hCeq]
    _ = tfpR * (tfpR ^ (a / (1 - a)) *
          ((a * p) ^ (a / (1 - a)) * (((1 + mu) / cp) * (1 / (r + dR))) ^ (a / (1 - a)))) := by
        rw [Real.mul_rpow htR.le (mul_nonneg hap.le hX.le), Real.mul_rpow hap.le hX.le]
    _ = (tfpR ^ (1 : ℝ) * tfpR ^ (a / (1 - a))) *
          ((a * p) ^ (a / (1 - a)) * (((1 + mu) / cp) * (1 / (r + dR))) ^ (a / (1 - a))) := by
        rw [Real.rpow_one]; ring
    _ = (a * p) ^ (a / (1 - a)) *
          (tfpR ^ ((1 : ℝ) / (1 - a)) *
            (((1 + mu) / cp) * (1 / (r + dR))) ^ (a / (1 - a))) := by
        rw [← Real.rpow_add htR, hsum1]; ring

/-- At the analytic price, demand exactly equals the factored supply. -/
lemma market_clearing_value (Q T1 T2 a p : ℝ) (ha0 : 0 < a) (ha1 : a < 1)
    (hT : 0 < T1 + T2) (hQ : 0 < Q)
    (hp : p = (1 / a) * (Q / (T1 + T2)) ^ ((1 - a) / a)) :
    Q - ((a * p) ^ (a / (1 - a)) * T1 + (a * p) ^ (a / (1 - a)) * T2) = 0 := by
  have ha' : a ≠ 0 := ne_of_gt ha0
  have hne : (1 : ℝ) - a ≠ 0 := by linarith
  have hQT : 0 < Q / (T1 + T2) := div_pos hQ hT
  have hap : a * p = (Q / (T1 + T2)) ^ ((1 - a) / a) := by
    rw [hp, ← mul_assoc, mul_one_div_cancel ha', one_mul]
  have hpow : (a * p) ^ (a / (1 - a)) = Q / (T1 + T2) := by
    rw [hap, ← Real.rpow_mul hQT.le,
      (show (1 - a) / a * (a / (1 - a)) = (1 : ℝ) by field_simp), Real.rpow_one]
  rw [hpow]
  field_simp
  ring

/-! ## Claim theorems -/

/-- **C5.** For every Cobb-Douglas parameter configuration (`sigma = 1`
is captured by `rho = 0`, with `alpha + beta = gamma` and
`0 < beta < 1`) and all positive capital, energy price and fossil fuel
price, the closed-form fossil fuel demand satisfies the first-order
condition for fuel use: the energy price times the marginal product of
fossil fuel evaluated at that demand equals the fossil fuel price. -/
theorem C5_fossil_fuel_demand_satisfies_foc (s : NonRenewableEnergySector)
    (hrho : s.rho = 0) (hsum : s.alpha + s.beta = s.gamma)
    (hb0 : 0 < s.beta) (hb1 : s.beta < 1) (ht : 0 < s.tfp)
    (K p pF : ℝ) (hK : 0 < K) (hp : 0 < p) (hpF : 0 < pF) :
    ∃ mpf, s._marginal_product_fossil_fuel K p pF = .ok mpf ∧ p * mpf = pF := by
  have hCD : s._is_cobb_douglas := ⟨hrho, hsum⟩
  have hb1' : (1 : ℝ) - s.beta ≠ 0 := by linarith
  have hB : 0 < s.tfp * s.beta / (pF / p) :=
    div_pos (mul_pos ht hb0) (div_pos hpF hp)
  have hF : 0 < (s.tfp * s.beta / (pF / p)) ^ ((1 : ℝ) / (1 - s.beta)) *
      K ^ (s.alpha / (1 - s.beta)) :=
    mul_pos (Real.rpow_pos_of_pos hB _) (Real.rpow_pos_of_pos hK _)
  refine ⟨s.beta * ((s.tfp * K ^ s.alpha *
      ((s.tfp * s.beta / (pF / p)) ^ ((1 : ℝ) / (1 - s.beta)) *
        K ^ (s.alpha / (1 - s.beta))) ^ s.beta) /
      ((s.tfp * s.beta / (pF / p)) ^ ((1 : ℝ) / (1 - s.beta)) *
        K ^ (s.alpha / (1 - s.beta)))), ?_, ?_⟩
  · rw [NonRenewableEnergySector._marginal_product_fossil_fuel]
    simp only [NonRenewableEnergySector.fossil_fuel_demand_ok s hCD,
      NonRenewableEnergySector.output_ok s hCD]
    simp [Except.bind, if_pos hCD, pure, Except.pure]
    rfl
  · apply cobb_douglas_fuel_foc s.tfp s.beta s.alpha p pF K _ hpF hF
    rw [Real.mul_rpow (Real.rpow_pos_of_pos hB _).le (Real.rpow_pos_of_pos hK _).le,
      ← Real.rpow_mul hB.le, ← Real.rpow_mul hK.le,
      one_div_mul_cancel hb1', div_mul_cancel₀ _ hb1', Real.rpow_one]

/-- **C4.** For every valid parameter set (both CES and Cobb-Douglas
functional forms), non-renewable sector output is exactly zero when
capital is zero, when fossil fuel is zero, or when both are zero —
the zero-output edge-case policy applies and no NaN arises (the result
is the real number `0`). -/
theorem C4_output_zero_at_zero_inputs (tfp alpha beta gamma sigma K F : ℝ)
    (ht : 0 < tfp) (ha : 0 < alpha) (hb : 0 < beta) (hg : 0 < gamma) (hs : 0 < sigma)
    (h : K = 0 ∨ F = 0) :
    output_static tfp alpha beta gamma sigma K F = 0 := by
  rw [output_static, if_pos h]

/-- Witness for C4 at a CES parameter draw (`sigma = 2`) with zero
capital and positive fossil fuel. -/
theorem C4_witness :
    ((0 : ℝ) < 1 ∧ (0 : ℝ) < 1 / 2 ∧ (0 : ℝ) < 2 ∧ ((0 : ℝ) = 0 ∨ (10 : ℝ) = 0)) ∧
      output_static 1 (1 / 2) (1 / 2) 1 2 0 10 = 0 :=
  ⟨⟨by norm_num, by norm_num, by norm_num, Or.inl rfl⟩,
    C4_output_zero_at_zero_inputs 1 (1 / 2) (1 / 2) 1 2 0 10 (by norm_num) (by norm_num)
      (by norm_num) (by norm_num) (by norm_num) (Or.inl rfl)⟩

/-- One unfolding of `bisect`: same nonzero sign of the objective at the
two bracket endpoints is reported as the distinguishable
no-sign-change error, never as a price. -/
lemma bisect_no_sign_change (f : ℝ → Except PyError ℝ) (xtol : ℝ) (n : ℕ) (a b fa fb : ℝ)
    (hfa : f a = .ok fa) (hfb : f b = .ok fb) (ha0 : fa ≠ 0) (hb0 : fb ≠ 0)
    (hsign : 0 < fa * fb) :
    bisect f xtol (n + 1) a b = .error .noSignChange := by
  rw [bisect, hfa, hfb]
  simp [Except.bind, if_neg ha0, if_neg hb0, if_pos hsign]

lemma bind_ok_eq {α β : Type} (a : α) (k : α → Except PyError β) :
    Bind.bind (Except.ok a) k = k a := rfl

lemma bind_error_eq {α β : Type} (e : PyError) (k : α → Except PyError β) :
    Bind.bind (Except.error e : Except PyError α) k = Except.error e := rfl

lemma pure_eq_ok {α : Type} (a : α) : (pure a : Except PyError α) = Except.ok a := rfl

/-- Soundness of a successful `bisect` run: the returned value lies in a
sign-change bracket of width at most `xtol` inside the initial
bracket. -/
lemma bisect_ok_bracket (f : ℝ → Except PyError ℝ) (xtol : ℝ) (hx : 0 ≤ xtol) :
    ∀ n a b p, a ≤ b → bisect f xtol n a b = .ok p →
      ∃ a' b' fa fb, a ≤ a' ∧ a' ≤ p ∧ p ≤ b' ∧ b' ≤ b ∧ b' - a' ≤ xtol ∧
        f a' = .ok fa ∧ f b' = .ok fb ∧ fa * fb ≤ 0 := by
  intro n
  induction n with
  | zero =>
    intro a b p _ h
    rw [bisect] at h
    simp at h
  | succ n ih =>
    intro a b p hab h
    rw [bisect] at h
    cases hfa : f a with
    | error e => rw [hfa] at h; simp at h
    | ok fa =>
      cases hfb : f b with
      | error e => rw [hfa, hfb] at h; simp at h
      | ok fb =>
        rw [hfa, hfb] at h
        dsimp only at h
        split_ifs at h with h1 h2 h3 h4
        · have hp : a = p := by simpa using h
          exact ⟨a, a, fa, fa, le_rfl, hp.le, hp.ge, hab,
            by rw [sub_self]; exact hx, hfa, hfa, by simp [h1]⟩
        · have hp : b = p := by simpa using h
          exact ⟨b, b, fb, fb, hab, hp.le, hp.ge, le_rfl,
            by rw [sub_self]; exact hx, hfb, hfb, by simp [h2]⟩
        · have hp : (a + b) / 2 = p := by simpa using h
          exact ⟨a, b, fa, fb, le_rfl, by linarith, by linarith, le_rfl, h4,
            hfa, hfb, not_lt.mp h3⟩
        · cases hfm : f ((a + b) / 2) with
          | error e => rw [hfm] at h; simp at h
          | ok fm =>
            rw [hfm] at h
            dsimp only at h
            split_ifs at h with h5
            · obtain ⟨a', b', fa', fb', g1, g2, g3, g4, g5, g6, g7, g8⟩ :=
                ih ((a + b) / 2) b p (by linarith) h
              exact ⟨a', b', fa', fb', by linarith, g2, g3, g4, g5, g6, g7, g8⟩
            · obtain ⟨a', b', fa', fb', g1, g2, g3, g4, g5, g6, g7, g8⟩ :=
                ih a ((a + b) / 2) p (by linarith) h
              exact ⟨a', b', fa', fb', g1, g2, g3, by linarith, g5, g6, g7, g8⟩

/-- **C1.** For every market, capital level and exogenous price triple:
if the excess demand takes the same nonzero sign at both ends of the
bracket `[1e-12, 1e12]`, `find_market_price` fails with the
distinguishable no-sign-change error (and at fuel exhaustion `bisect`
fails with `.nonConvergence`) rather than returning a spurious value;
and whenever it succeeds, the returned price sits inside a sign-change
bracket of the excess demand of width at most the tolerance `2e-12` —
the excess demand vanishes within tolerance at the returned price. -/
theorem C1_find_market_price_error_or_bracketed_root
    (m : WholesaleEnergyMarket) (K cp pF r : ℝ) :
    (∀ fa fb, m._excess_demand K cp pF r (1 / 10 ^ 12) = .ok fa →
        m._excess_demand K cp pF r (10 ^ 12) = .ok fb →
        fa ≠ 0 → fb ≠ 0 → 0 < fa * fb →
        m.find_market_price K cp pF r = .error .noSignChange) ∧
    (∀ p, m.find_market_price K cp pF r = .ok p →
        ∃ a b fa fb, 1 / 10 ^ 12 ≤ a ∧ a ≤ p ∧ p ≤ b ∧ b ≤ 10 ^ 12 ∧
          b - a ≤ 2 / 10 ^ 12 ∧
          m._excess_demand K cp pF r a = .ok fa ∧
          m._excess_demand K cp pF r b = .ok fb ∧ fa * fb ≤ 0) := by
  constructor
  · intro fa fb hfa hfb ha0 hb0 hsign
    exact bisect_no_sign_change _ _ 99 _ _ fa fb hfa hfb ha0 hb0 hsign
  · intro p hp
    exact bisect_ok_bracket _ _ (by norm_num) 100 _ _ p (by norm_num) hp

lemma rpow_two_rpow_half (x : ℝ) (hx : 0 ≤ x) : (x ^ (2 : ℝ)) ^ ((1 : ℝ) / 2) = x := by
  rw [← Real.rpow_mul hx, show (2 : ℝ) * (1 / 2) = 1 by norm_num, Real.rpow_one]

/-- Concrete evaluation of the excess demand of a market with zero
consumer demand, `alpha = beta = 1/2` Cobb-Douglas non-renewable
production (`tfp = 2`) and a matching renewable sector: at any positive
price the excess demand is `-(6p)`. -/
lemma witness_excess_eval (p : ℝ) (hp : 0 < p) :
    WholesaleEnergyMarket._excess_demand
        ⟨⟨0⟩, ⟨2, 1/2, 1/2, 1, 1, 1, 0, 1⟩, ⟨2, 1/2, 1/2, 1⟩⟩ 1 1 1 (1/2) p =
      .ok (-(6 * p)) := by
  have hCD : NonRenewableEnergySector._is_cobb_douglas ⟨2, 1/2, 1/2, 1, 1, 1, 0, 1⟩ :=
    ⟨rfl, by norm_num⟩
  rw [WholesaleEnergyMarket._excess_demand, WholesaleEnergyMarket._aggregate_supply,
    NonRenewableEnergySector.output_ok _ hCD]
  simp only [Except.map, Except.ok.injEq]
  rw [RenewableEnergySector.output, RenewableEnergySector._capital_demand,
    RenewableEnergySector.subsidy]
  dsimp only [EnergyConsumer.demand]
  have hp' : p ≠ 0 := hp.ne'
  rw [show (2 : ℝ) * (1 / 2) / (1 / p) = p by field_simp,
    show (1 : ℝ) / 2 * 2 / (1 / 2 + 1 / 2) * (1 / (1 / ((1 + 1) * p))) = 2 * p by
      rw [one_div_one_div]; norm_num,
    show (1 : ℝ) / (1 - 1 / 2) = 2 by norm_num,
    Real.one_rpow, Real.one_rpow, mul_one, mul_one,
    rpow_two_rpow_half p hp.le, rpow_two_rpow_half (2 * p) (by positivity)]
  ring

/-- Witness for C1: a concrete market (zero consumer demand, strictly
positive supply) whose excess demand takes the same negative sign at
both bracket endpoints, and `find_market_price` reports the
distinguishable no-sign-change error. -/
theorem C1_witness :
    (WholesaleEnergyMarket._excess_demand
        ⟨⟨0⟩, ⟨2, 1/2, 1/2, 1, 1, 1, 0, 1⟩, ⟨2, 1/2, 1/2, 1⟩⟩ 1 1 1 (1/2) (1 / 10 ^ 12) =
          .ok (-(6 * (1 / 10 ^ 12))) ∧
      WholesaleEnergyMarket._excess_demand
        ⟨⟨0⟩, ⟨2, 1/2, 1/2, 1, 1, 1, 0, 1⟩, ⟨2, 1/2, 1/2, 1⟩⟩ 1 1 1 (1/2) (10 ^ 12) =
          .ok (-(6 * 10 ^ 12)) ∧
      -(6 * ((1 : ℝ) / 10 ^ 12)) ≠ 0 ∧ -(6 * (10 ^ 12 : ℝ)) ≠ 0 ∧
      0 < -(6 * ((1 : ℝ) / 10 ^ 12)) * -(6 * (10 ^ 12 : ℝ))) ∧
    WholesaleEnergyMarket.find_market_price
        ⟨⟨0⟩, ⟨2, 1/2, 1/2, 1, 1, 1, 0, 1⟩, ⟨2, 1/2, 1/2, 1⟩⟩ 1 1 1 (1/2) =
      .error .noSignChange :=
  ⟨⟨witness_excess_eval (1 / 10 ^ 12) (by norm_num),
    witness_excess_eval (10 ^ 12) (by norm_num),
    by norm_num, by norm_num, by norm_num⟩,
    (C1_find_market_price_error_or_bracketed_root
        ⟨⟨0⟩, ⟨2, 1/2, 1/2, 1, 1, 1, 0, 1⟩, ⟨2, 1/2, 1/2, 1⟩⟩ 1 1 1 (1/2)).1
      (-(6 * (1 / 10 ^ 12))) (-(6 * 10 ^ 12))
      (witness_excess_eval (1 / 10 ^ 12) (by norm_num))
      (witness_excess_eval (10 ^ 12) (by norm_num))
      (by norm_num) (by norm_num) (by norm_num)⟩

/-- **C2.** In the special case where the renewable output elasticity
`a` equals one minus the non-renewable capital elasticity, non-renewable
production is Cobb-Douglas (`rho = 0`, `gamma = 1`, `beta_NR = a`) and
the renewable subsidy is a constant multiplicative markup over price,
for every valid positive parameter draw and capital level the
closed-form analytic price of `_energy_market_price` is an exact root
of the market's excess-demand function. -/
theorem C2_analytic_price_is_excess_demand_root
    (Q tfpN dN pN tfpR a dR mu cp pF r K : ℝ)
    (ha0 : 0 < a) (ha1 : a < 1) (htN : 0 < tfpN) (htR : 0 < tfpR)
    (hcp : 0 < cp) (hpF : 0 < pF) (hr : 0 < r + dR) (hmu : 0 < 1 + mu)
    (hK : 0 < K) (hQ : 0 < Q) :
    WholesaleEnergyMarket._excess_demand
        ⟨⟨Q⟩, ⟨tfpN, 1 - a, a, 1, dN, pN, 0, 1⟩, ⟨tfpR, a, dR, mu⟩⟩ K cp pF r
        (_energy_market_price
          ⟨⟨Q⟩, ⟨tfpN, 1 - a, a, 1, dN, pN, 0, 1⟩, ⟨tfpR, a, dR, mu⟩⟩ K cp pF r) =
      .ok 0 := by
  have hne : (1 : ℝ) - a ≠ 0 := by linarith
  have hCD : NonRenewableEnergySector._is_cobb_douglas ⟨tfpN, 1 - a, a, 1, dN, pN, 0, 1⟩ :=
    ⟨rfl, show (1 - a) + a = 1 by ring⟩
  have hT1 : 0 < tfpN ^ ((1 : ℝ) / (1 - a)) * (1 / pF) ^ (a / (1 - a)) * K :=
    mul_pos (mul_pos (Real.rpow_pos_of_pos htN _)
      (Real.rpow_pos_of_pos (by positivity) _)) hK
  have hT2 : 0 < tfpR ^ ((1 : ℝ) / (1 - a)) *
      (((1 + mu) / cp) * (1 / (r + dR))) ^ (a / (1 - a)) :=
    mul_pos (Real.rpow_pos_of_pos htR _) (Real.rpow_pos_of_pos (by positivity) _)
  have hD : 0 < tfpN ^ ((1 : ℝ) / (1 - a)) * (1 / pF) ^ (a / (1 - a)) * K +
      tfpR ^ ((1 : ℝ) / (1 - a)) * (((1 + mu) / cp) * (1 / (r + dR))) ^ (a / (1 - a)) :=
    add_pos hT1 hT2
  have hprice : _energy_market_price
      ⟨⟨Q⟩, ⟨tfpN, 1 - a, a, 1, dN, pN, 0, 1⟩, ⟨tfpR, a, dR, mu⟩⟩ K cp pF r =
      (1 / a) * (Q /
        (tfpN ^ ((1 : ℝ) / (1 - a)) * (1 / pF) ^ (a / (1 - a)) * K +
          tfpR ^ ((1 : ℝ) / (1 - a)) *
            (((1 + mu) / cp) * (1 / (r + dR))) ^ (a / (1 - a)))) ^ ((1 - a) / a) := rfl
  have hpstar : 0 < _energy_market_price
      ⟨⟨Q⟩, ⟨tfpN, 1 - a, a, 1, dN, pN, 0, 1⟩, ⟨tfpR, a, dR, mu⟩⟩ K cp pF r := by
    rw [hprice]
    exact mul_pos (by positivity) (Real.rpow_pos_of_pos (div_pos hQ hD) _)
  rw [WholesaleEnergyMarket._excess_demand, WholesaleEnergyMarket._aggregate_supply,
    NonRenewableEnergySector.output_ok _ hCD]
  simp only [Except.map, Except.ok.injEq]
  rw [RenewableEnergySector.output, RenewableEnergySector._capital_demand,
    RenewableEnergySector.subsidy]
  dsimp only [EnergyConsumer.demand]
  rw [nr_supply_value tfpN a _ pF K ha0 ha1 htN hpstar hpF hK,
    r_supply_value tfpR a dR mu cp _ r ha0 ha1 htR hcp hpstar hr hmu]
  exact market_clearing_value Q _ _ a _ ha0 ha1 hD hQ hprice

/-- Witness for C2 at `a = 1/2`, unit productivities and prices,
`r = dR = 1/2`, `mu = 1`, `Q = 1`, capital level `10`. -/
theorem C2_witness :
    ((0 : ℝ) < 1 / 2 ∧ (1 : ℝ) / 2 < 1 ∧ (0 : ℝ) < 1 ∧ (0 : ℝ) < 1 / 2 + 1 / 2 ∧
        (0 : ℝ) < 1 + 1 ∧ (0 : ℝ) < 10) ∧
      WholesaleEnergyMarket._excess_demand
          ⟨⟨1⟩, ⟨1, 1 - 1 / 2, 1 / 2, 1, 1, 1, 0, 1⟩, ⟨1, 1 / 2, 1 / 2, 1⟩⟩ 10 1 1 (1 / 2)
          (_energy_market_price
            ⟨⟨1⟩, ⟨1, 1 - 1 / 2, 1 / 2, 1, 1, 1, 0, 1⟩, ⟨1, 1 / 2, 1 / 2, 1⟩⟩ 10 1 1 (1 / 2)) =
        .ok 0 :=
  ⟨⟨by norm_num, by norm_num, by norm_num, by norm_num, by norm_num, by norm_num⟩,
    C2_analytic_price_is_excess_demand_root 1 1 1 1 1 (1 / 2) (1 / 2) 1 1 1 (1 / 2) 10
      (by norm_num) (by norm_num) (by norm_num) (by norm_num) (by norm_num) (by norm_num)
      (by norm_num) (by norm_num) (by norm_num) (by norm_num)⟩

/-- **C7 counterexample.** The trajectory's `cost_NR` column does NOT
hold the sector's total costs: at a realizable sample
(`q = 1`, `K = 1`, `price = 1`, with `output_NR = 2` exactly the
sector's output at that state), the sector's total costs are `1` but the
stored column entry is `1/2` — the costs divided by the output. -/
theorem C7_counterexample_cost_column_not_total_costs :
    nonRenewableCostColumn ⟨2, 1/2, 1/2, 1, 1, 1, 0, 1⟩ 1 1 [⟨0, 1, 1, 1, 2, 1⟩] ≠
        [NonRenewableEnergySector.costs ⟨2, 1/2, 1/2, 1, 1, 1, 0, 1⟩ 1 1 1 1 1] ∧
      nonRenewableCostColumn ⟨2, 1/2, 1/2, 1, 1, 1, 0, 1⟩ 1 1 [⟨0, 1, 1, 1, 2, 1⟩] =
        [Except.ok (1 / 2)] ∧
      NonRenewableEnergySector.costs ⟨2, 1/2, 1/2, 1, 1, 1, 0, 1⟩ 1 1 1 1 1 =
        Except.ok 1 ∧
      NonRenewableEnergySector.output ⟨2, 1/2, 1/2, 1, 1, 1, 0, 1⟩ 1 1 1 = Except.ok 2 := by
  have hCD : NonRenewableEnergySector._is_cobb_douglas ⟨2, 1/2, 1/2, 1, 1, 1, 0, 1⟩ :=
    ⟨rfl, by norm_num⟩
  have hcosts : NonRenewableEnergySector.costs ⟨2, 1/2, 1/2, 1, 1, 1, 0, 1⟩ 1 1 1 1 1 =
      Except.ok 1 := by
    norm_num [NonRenewableEnergySector.costs, NonRenewableEnergySector._cost_capital,
      NonRenewableEnergySector._cost_fossil_fuel, NonRenewableEnergySector._investment_demand,
      NonRenewableEnergySector._fossil_fuel_demand,
      NonRenewableEnergySector._percentage_adjustment_costs,
      NonRenewableEnergySector._is_cobb_douglas, Except.map, Except.bind, pure, Except.pure,
      Real.sqrt_zero, Real.one_rpow]
    simp only [bind_ok_eq]
    norm_num
  have hout : NonRenewableEnergySector.output ⟨2, 1/2, 1/2, 1, 1, 1, 0, 1⟩ 1 1 1 =
      Except.ok 2 := by
    rw [NonRenewableEnergySector.output_ok _ hCD]
    norm_num [Real.one_rpow]
  have hcol : nonRenewableCostColumn ⟨2, 1/2, 1/2, 1, 1, 1, 0, 1⟩ 1 1 [⟨0, 1, 1, 1, 2, 1⟩] =
      [Except.ok (1 / 2)] := by
    rw [nonRenewableCostColumn, List.map_cons, List.map_nil]
    dsimp only
    rw [hcosts]
    norm_num [Except.map]
  refine ⟨?_, hcol, hcosts, hout⟩
  rw [hcol, hcosts]
  intro hcontra
  simp at hcontra

/-- **C7 (amended).** The `cost_NR`, `profit_NR`, `cost_R` and
`profit_R` entries that the solver appends are the respective sector's
costs and profits at the sample's `(q, K, price)` state (the renewable
entries using the supplied fitted local price growth rate) DIVIDED by
the sector's output column at that sample — per-unit-of-output values,
not the totals. -/
theorem C7_amended_columns_are_per_unit_values
    (sNR : NonRenewableEnergySector) (sR : RenewableEnergySector)
    (cp pF r : ℝ) (rows : List TrajRow) (gs : List ℝ) (i : ℕ) (row : TrajRow) (g : ℝ)
    (hrow : rows[i]? = some row) (hg : gs[i]? = some g) :
    (nonRenewableCostColumn sNR cp pF rows)[i]? =
        some ((sNR.costs row.q row.K cp row.price pF).map (· / row.outNR)) ∧
      (nonRenewableProfitColumn sNR cp pF rows)[i]? =
        some ((sNR.profits row.q row.K cp row.price pF).map (· / row.outNR)) ∧
      (renewableCostColumn sR cp r gs rows)[i]? =
        some (sR.costs cp row.price g r / row.outR) ∧
      (renewableProfitColumn sR cp r gs rows)[i]? =
        some (sR.profits cp row.price g r / row.outR) := by
  have hz : (rows.zip gs)[i]? = some (row, g) := by
    rw [List.getElem?_zip_eq_some]
    exact ⟨hrow, hg⟩
  refine ⟨?_, ?_, ?_, ?_⟩ <;>
    simp [nonRenewableCostColumn, nonRenewableProfitColumn, renewableCostColumn,
      renewableProfitColumn, List.getElem?_map, hrow, hz]

/-- Witness for C7 (amended) on a one-sample trajectory with growth
rate `5`. -/
theorem C7_witness :
    (([(⟨0, 1, 1, 1, 2, 1⟩ : TrajRow)])[0]? = some ⟨0, 1, 1, 1, 2, 1⟩ ∧
        ([(5 : ℝ)])[0]? = some 5) ∧
      ((nonRenewableCostColumn ⟨2, 1/2, 1/2, 1, 1, 1, 0, 1⟩ 1 1
            [⟨0, 1, 1, 1, 2, 1⟩])[0]? =
          some ((NonRenewableEnergySector.costs ⟨2, 1/2, 1/2, 1, 1, 1, 0, 1⟩ 1 1 1 1 1).map
            (· / 2)) ∧
        (nonRenewableProfitColumn ⟨2, 1/2, 1/2, 1, 1, 1, 0, 1⟩ 1 1
            [⟨0, 1, 1, 1, 2, 1⟩])[0]? =
          some ((NonRenewableEnergySector.profits ⟨2, 1/2, 1/2, 1, 1, 1, 0, 1⟩ 1 1 1 1 1).map
            (· / 2)) ∧
        (renewableCostColumn ⟨2, 1/2, 1/2, 1⟩ 1 (1/2) [(5 : ℝ)]
            [⟨0, 1, 1, 1, 2, 1⟩])[0]? =
          some (RenewableEnergySector.costs ⟨2, 1/2, 1/2, 1⟩ 1 1 5 (1/2) / 1) ∧
        (renewableProfitColumn ⟨2, 1/2, 1/2, 1⟩ 1 (1/2) [(5 : ℝ)]
            [⟨0, 1, 1, 1, 2, 1⟩])[0]? =
          some (RenewableEnergySector.profits ⟨2, 1/2, 1/2, 1⟩ 1 1 5 (1/2) / 1)) :=
  ⟨⟨rfl, rfl⟩,
    C7_amended_columns_are_per_unit_values ⟨2, 1/2, 1/2, 1, 1, 1, 0, 1⟩ ⟨2, 1/2, 1/2, 1⟩
      1 1 (1/2) [⟨0, 1, 1, 1, 2, 1⟩] [(5 : ℝ)] 0 ⟨0, 1, 1, 1, 2, 1⟩ 5 rfl rfl⟩

/-- Witness for C5 at `alpha = beta = 1/2`, `gamma = tfp = 1` and unit
capital and prices. -/
theorem C5_witness :
    (NonRenewableEnergySector.mk 1 (1/2) (1/2) 1 1 1 0 1).rho = 0 ∧
      (∃ mpf, NonRenewableEnergySector._marginal_product_fossil_fuel
          ⟨1, 1/2, 1/2, 1, 1, 1, 0, 1⟩ 1 1 1 = .ok mpf ∧ (1 : ℝ) * mpf = 1) :=
  ⟨rfl,
    C5_fossil_fuel_demand_satisfies_foc ⟨1, 1/2, 1/2, 1, 1, 1, 0, 1⟩ rfl (by norm_num)
      (by norm_num) (by norm_num) (by norm_num) 1 1 1 (by norm_num) (by norm_num)
      (by norm_num)⟩

/-- **C3.** For every non-renewable sector with positive `delta` and
`phi`, `equilibrium_q` equals exactly `1 + (3/2)*delta^2*phi`, and at
`q = equilibrium_q` the capital equation of motion vanishes for every
positive capital level: investment demand exactly equals `delta*K`. -/
theorem C3_equilibrium_q_zeroes_capital_motion (s : NonRenewableEnergySector)
    (hd : 0 < s.delta) (hp : 0 < s.phi) (K : ℝ) (hK : 0 < K) :
    s.equilibrium_q = 1 + (3 / 2) * s.delta ^ 2 * s.phi ∧
      s.equation_motion_capital s.equilibrium_q K = .ok 0 := by
  refine ⟨rfl, ?_⟩
  have harg : (2 / 3) * (s.equilibrium_q - 1) * (1 / s.phi) = s.delta ^ 2 := by
    rw [NonRenewableEnergySector.equilibrium_q]
    field_simp
    ring
  rw [NonRenewableEnergySector.equation_motion_capital,
    NonRenewableEnergySector._investment_demand, harg,
    if_neg (not_lt.mpr (sq_nonneg s.delta)), Real.sqrt_sq hd.le]
  simp [Except.map]

/-- Witness for C3 at `delta = phi = K = 1`. -/
theorem C3_witness :
    (0 : ℝ) < 1 ∧
      (NonRenewableEnergySector.equilibrium_q ⟨1, 1/2, 1/2, 1, 1, 1, 0, 1⟩ =
          1 + (3 / 2) * (1 : ℝ) ^ 2 * 1 ∧
        NonRenewableEnergySector.equation_motion_capital ⟨1, 1/2, 1/2, 1, 1, 1, 0, 1⟩
          (NonRenewableEnergySector.equilibrium_q ⟨1, 1/2, 1/2, 1, 1, 1, 0, 1⟩) 1 = .ok 0) :=
  ⟨by norm_num,
    C3_equilibrium_q_zeroes_capital_motion ⟨1, 1/2, 1/2, 1, 1, 1, 0, 1⟩
      (by norm_num) (by norm_num) 1 (by norm_num)⟩

/-- **C10.** For every non-renewable sector with strictly positive
`delta` and `phi`, `equilibrium_q` is strictly greater than `1`; hence
the square-root argument `(2/3)*(q-1)/phi` inside investment demand is
strictly positive at `q = equilibrium_q` and for every `q ≥
equilibrium_q`, so investment demand is a well-defined real value
there. -/
theorem C10_equilibrium_q_gt_one_investment_defined (s : NonRenewableEnergySector)
    (hd : 0 < s.delta) (hp : 0 < s.phi) (q K : ℝ) (hq : s.equilibrium_q ≤ q) :
    1 < s.equilibrium_q ∧ 0 < (2 / 3) * (q - 1) * (1 / s.phi) ∧
      ∃ v, s._investment_demand q K = .ok v := by
  have h1 : 1 < s.equilibrium_q := by
    have : 0 < (3 / 2) * s.delta ^ 2 * s.phi := by positivity
    rw [NonRenewableEnergySector.equilibrium_q]
    linarith
  have harg : 0 < (2 / 3) * (q - 1) * (1 / s.phi) := by
    have hq1 : 0 < q - 1 := by linarith
    positivity
  exact ⟨h1, harg,
    ⟨Real.sqrt ((2 / 3) * (q - 1) * (1 / s.phi)) * K,
      by rw [NonRenewableEnergySector._investment_demand, if_neg (not_lt.mpr harg.le)]⟩⟩

/-- Witness for C10 at `delta = phi = 1`, `q = equilibrium_q`, `K = 1`. -/
theorem C10_witness :
    (0 : ℝ) < 1 ∧
      (1 < NonRenewableEnergySector.equilibrium_q ⟨1, 1/2, 1/2, 1, 1, 1, 0, 1⟩ ∧
        0 < (2 / 3) *
            (NonRenewableEnergySector.equilibrium_q ⟨1, 1/2, 1/2, 1, 1, 1, 0, 1⟩ - 1) *
            (1 / (1 : ℝ)) ∧
        ∃ v, NonRenewableEnergySector._investment_demand ⟨1, 1/2, 1/2, 1, 1, 1, 0, 1⟩
            (NonRenewableEnergySector.equilibrium_q ⟨1, 1/2, 1/2, 1, 1, 1, 0, 1⟩) 1 = .ok v) :=
  ⟨by norm_num,
    C10_equilibrium_q_gt_one_investment_defined ⟨1, 1/2, 1/2, 1, 1, 1, 0, 1⟩
      (by norm_num) (by norm_num) _ 1 le_rfl⟩

/-- **C8 (code behavior at the failing input).** With `phi = 1`, calling
`_investment_demand` at `q = 0 < 1` and `capital = 1` yields the silent
float-NaN marker — the square-root argument is `-2/3 < 0` and Python's
`** 0.5` RETURNS NaN (numpy) or a complex number (pure Python); no
explicit undefined/negative-root error is raised. -/
theorem C8_investment_demand_q_lt_one_is_nan :
    NonRenewableEnergySector._investment_demand ⟨1, 1/2, 1/2, 1, 1, 1, 0, 1⟩ 0 1 =
      .error .nanValue := by
  rw [NonRenewableEnergySector._investment_demand, if_pos (by norm_num)]

/-- **C6 (code behavior at the failing configuration).** The reverse
shooting `while` loop never exits when the integrator keeps succeeding
but capital never crosses `K0`: with a stationary integrator step (the
behavior when the vector field vanishes), `K0 = 0` below the constant
capital `1`, the loop is still running after every finite number of
iterations — the source loop has no step cap and loops forever instead
of reporting a bounded-steps failure. -/
theorem C6_shooting_loop_never_exits :
    ¬ shootingTerminates (fun _ y => some y) 1 0 true 0 (1, 1) := by
  have key : ∀ n t, shootingLoop (fun _ y => some y) 1 0 true n t (1, 1) = none := by
    intro n
    induction n with
    | zero => intro t; rfl
    | succ n ih =>
      intro t
      rw [shootingLoop]
      norm_num
      exact ih (t + 1)
  rintro ⟨n, r, h⟩
  rw [key n 0] at h
  exact Option.noConfusion h

/-- **C9 counterexample.** Constructing a non-renewable sector with a
negative total factor productivity (`tfp = -1`) is NOT rejected: the
constructor succeeds and stores the invalid parameter unmodified, so no
`InvalidParameter` error is reported at construction time. -/
theorem C9_counterexample_negative_tfp_accepted :
    NonRenewableEnergySector.init (-1) (1/2) (1/2) 1 1 1 1 =
      .ok ⟨-1, 1/2, 1/2, 1, 1, 1, 0, 1⟩ := by
  rw [NonRenewableEnergySector.init, if_neg (by norm_num : (1 : ℝ) ≠ 0)]
  norm_num

/-- **C9 (amended).** Sector construction performs no validation at all:
for every parameter draw (with `sigma ≠ 0`, since `sigma = 0` raises a
`ZeroDivisionError` computing `rho`, not an `InvalidParameter` error)
the non-renewable constructor succeeds and stores the supplied values
unmodified — never clamped — and the renewable constructor always
succeeds and stores its values unmodified. -/
theorem C9_construction_stores_unmodified
    (tfp alpha beta gamma delta phi sigma tfpR alphaR deltaR muR : ℝ) (h : sigma ≠ 0) :
    NonRenewableEnergySector.init tfp alpha beta gamma delta phi sigma =
      .ok ⟨tfp, alpha, beta, gamma, delta, phi, (sigma - 1) / sigma, sigma⟩ ∧
    RenewableEnergySector.init tfpR alphaR deltaR muR = ⟨tfpR, alphaR, deltaR, muR⟩ :=
  ⟨by rw [NonRenewableEnergySector.init, if_neg h], rfl⟩

/-- Witness for C9 (amended) at an all-ones parameter draw. -/
theorem C9_witness :
    (1 : ℝ) ≠ 0 ∧
      (NonRenewableEnergySector.init 1 1 1 1 1 1 1 =
          .ok ⟨1, 1, 1, 1, 1, 1, ((1 : ℝ) - 1) / 1, 1⟩ ∧
        RenewableEnergySector.init 1 1 1 1 = ⟨1, 1, 1, 1⟩) :=
  ⟨by norm_num, C9_construction_stores_unmodified 1 1 1 1 1 1 1 1 1 1 1 (by norm_num)⟩
